import Mathlib

/-!
Shallow embedding of `reparselib.cpp`, a small library for inspecting,
creating and deleting NTFS reparse points.

Modelling conventions:
* The filesystem and driver are a deterministic environment supplied per call:
  the result of `GetFileAttributes` is a `Nat` of attribute flag bits, each
  `CreateFile` open and each `DeviceIoControl` request has a Bool outcome,
  and the buffer the driver fills on a GET request is a `List Nat` of bytes.
* Each operation returns its C return value (`BOOL`, modelled as `Bool`),
  the sequence of values stored through its caller-supplied output pointer,
  and a trace of the externally visible resource and I/O events it performs,
  in program order.
* Machine integers are `Nat` with explicit masking where the width matters
  (`ReparseDataLength` is a 16-bit field, hence `% 2 ^ 16`).
-/

/-- Windows attribute bit FILE_ATTRIBUTE_REPARSE_POINT (0x400). -/
def FILE_ATTRIBUTE_REPARSE_POINT : Nat := 0x400

/-- Windows attribute bit FILE_ATTRIBUTE_DIRECTORY (0x10). -/
def FILE_ATTRIBUTE_DIRECTORY : Nat := 0x10

/-- Value returned by GetFileAttributes when the path does not exist:
all 32 bits set (`(DWORD)-1`). -/
def INVALID_FILE_ATTRIBUTES : Nat := 0xFFFFFFFF

/-- Maximum reparse data transfer size, 16384 bytes. -/
def MAXIMUM_REPARSE_DATA_BUFFER_SIZE : Nat := 16384

/-- Size of the REPARSE_GUID_DATA_BUFFER header up to the generic data region:
tag (4 bytes) + data length (2) + reserved (2) + GUID (16) = 24 bytes.
This is the GUID-inclusive (custom-layout) header size, the constant the
source uses for its delete buffer and its SET byte count. -/
def REPARSE_GUID_DATA_BUFFER_HEADER_SIZE : Nat := 24

/-- Modelled from the spec: the no-GUID (system-layout) header size — the
header without the GUID region, i.e. tag (4 bytes) + data length (2) +
reserved (2) = 8 bytes; the GUID-inclusive header adds the 16-byte GUID.
The source never uses this constant; it exists to compare the spec's
"no-GUID header size" with what the code allocates. -/
def REPARSE_DATA_BUFFER_HEADER_SIZE : Nat := 8

/-- Byte offset of the ReparseGuid field inside REPARSE_GUID_DATA_BUFFER:
it follows tag (4 bytes) + data length (2) + reserved (2). -/
def GUID_FIELD_OFFSET : Nat := 8

/-- Externally visible events of one library call, in program order. -/
inductive Event where
  /-- OpenFileForRead: CreateFile with GENERIC_READ; the flag records whether
  FILE_FLAG_BACKUP_SEMANTICS was added (the path had the directory bit). -/
  | openRead (backup : Bool)
  /-- OpenFileForWrite: CreateFile with GENERIC_WRITE. -/
  | openWrite (backup : Bool)
  /-- GlobalAlloc(GPTR, size): zero-initialised allocation of `size` bytes. -/
  | alloc (size : Nat)
  /-- GlobalFree of the scratch buffer. -/
  | free
  /-- CloseHandle. -/
  | closeHandle
  /-- DeviceIoControl FSCTL_GET_REPARSE_POINT. -/
  | ioctlGet
  /-- DeviceIoControl FSCTL_DELETE_REPARSE_POINT, recording the input
  buffer's tag, data-length, reserved and GUID fields and the byte count. -/
  | ioctlDelete (tag dataLength reserved : Nat) (guid : List Nat) (byteCount : Nat)
  /-- DeviceIoControl FSCTL_SET_REPARSE_POINT, recording the buffer's tag
  and GUID fields and the byte count. -/
  | ioctlSet (tag : Nat) (guid : List Nat) (byteCount : Nat)
deriving DecidableEq

/-- Driver/filesystem responses for one query call: whether the read open
yields a valid handle, whether the GET request succeeds, and the bytes the
driver places into the caller's scratch buffer on a successful GET. -/
structure QueryEnv where
  openOk : Bool
  ioctlOk : Bool
  buf : List Nat
deriving DecidableEq

/-- Result of one query call: the BOOL return value, the sequence of values
stored through the caller's output pointer, and the event trace. -/
structure QueryRun (α : Type) where
  ret : Bool
  writes : List α
  events : List Event
deriving DecidableEq

/-- Result of a delete or create call: BOOL return value and event trace. -/
structure OpRun where
  ret : Bool
  events : List Event
deriving DecidableEq

/-- The 16 bytes of the ReparseGuid field, read at its fixed offset from a
returned buffer (`rd->ReparseGuid`). -/
def guidAt (buf : List Nat) : List Nat :=
  (buf.drop GUID_FIELD_OFFSET).take 16

/-- The ReparseTag field: the 32-bit little-endian value of the first four
bytes of a returned buffer (`rd->ReparseTag`). -/
def tagAt (buf : List Nat) : Nat :=
  buf.getD 0 0 + 2 ^ 8 * buf.getD 1 0 + 2 ^ 16 * buf.getD 2 0 + 2 ^ 24 * buf.getD 3 0

/-- All-zero GUID field, as left by a zero-initialising GPTR allocation. -/
def zeroGuid : List Nat := List.replicate 16 0

/-- ReparsePointExists: `GetFileAttributes(sFileName) & FILE_ATTRIBUTE_REPARSE_POINT`
returned as BOOL, i.e. true exactly when the masked value is nonzero.
`attrs` is the GetFileAttributes result for the path. -/
def ReparsePointExists (attrs : Nat) : Bool :=
  (attrs &&& FILE_ATTRIBUTE_REPARSE_POINT) != 0

/-- The BOOL `bBackup` argument the source passes to its open helpers:
`GetFileAttributes(sFileName) & FILE_ATTRIBUTE_DIRECTORY`, nonzero = true. -/
def isDirectoryFlag (attrs : Nat) : Bool :=
  (attrs &&& FILE_ATTRIBUTE_DIRECTORY) != 0

/-- GetReparseGUID: null-pointer check, reparse-attribute check, open for
read, allocate a MAXIMUM_REPARSE_DATA_BUFFER_SIZE scratch buffer, issue one
GET request; on success store `rd->ReparseGuid` through the output pointer;
close the handle and free the buffer. `pGuidNull` models `NULL == pGuid`. -/
def GetReparseGUID (attrs : Nat) (q : QueryEnv) (pGuidNull : Bool) :
    QueryRun (List Nat) :=
  if pGuidNull then ⟨false, [], []⟩
  else if ReparsePointExists attrs then
    if q.openOk then
      if q.ioctlOk then
        ⟨true, [guidAt q.buf],
          [.openRead (isDirectoryFlag attrs), .alloc MAXIMUM_REPARSE_DATA_BUFFER_SIZE,
           .ioctlGet, .closeHandle, .free]⟩
      else
        ⟨false, [],
          [.openRead (isDirectoryFlag attrs), .alloc MAXIMUM_REPARSE_DATA_BUFFER_SIZE,
           .ioctlGet, .closeHandle, .free]⟩
    else ⟨false, [], [.openRead (isDirectoryFlag attrs)]⟩
  else ⟨false, [], []⟩

/-- GetReparseTag: identical control flow to GetReparseGUID, but on success
stores `rd->ReparseTag` through the output pointer. -/
def GetReparseTag (attrs : Nat) (q : QueryEnv) (pTagNull : Bool) :
    QueryRun Nat :=
  if pTagNull then ⟨false, [], []⟩
  else if ReparsePointExists attrs then
    if q.openOk then
      if q.ioctlOk then
        ⟨true, [tagAt q.buf],
          [.openRead (isDirectoryFlag attrs), .alloc MAXIMUM_REPARSE_DATA_BUFFER_SIZE,
           .ioctlGet, .closeHandle, .free]⟩
      else
        ⟨false, [],
          [.openRead (isDirectoryFlag attrs), .alloc MAXIMUM_REPARSE_DATA_BUFFER_SIZE,
           .ioctlGet, .closeHandle, .free]⟩
    else ⟨false, [], [.openRead (isDirectoryFlag attrs)]⟩
  else ⟨false, [], []⟩

/-- DeleteReparsePoint: fail unless the reparse attribute is present and the
GUID is retrievable (via GetReparseGUID); allocate a zeroed buffer of
REPARSE_GUID_DATA_BUFFER_HEADER_SIZE bytes; retrieve the tag (via
GetReparseTag) into its tag field, else free the buffer and fail; open for
write (on failure return without freeing the buffer, exactly as the source
does); issue the header-only DELETE; if rejected, store the retrieved GUID
into the buffer's GUID field and issue the DELETE again with the same byte
count; free the buffer, close the handle, return the last DELETE's result.
`qGuid` and `qTag` are the driver responses for the two embedded query
calls, `del1Ok`/`del2Ok` those for the two DELETE attempts. -/
def DeleteReparsePoint (attrs : Nat) (qGuid qTag : QueryEnv)
    (openWriteOk del1Ok del2Ok : Bool) : OpRun :=
  if ReparsePointExists attrs then
    let guRun := GetReparseGUID attrs qGuid false
    if guRun.ret then
      let gu := guRun.writes.headD zeroGuid
      let tagRun := GetReparseTag attrs qTag false
      if tagRun.ret then
        let tag := tagRun.writes.headD 0
        if openWriteOk then
          let req1 := Event.ioctlDelete tag 0 0 zeroGuid
            REPARSE_GUID_DATA_BUFFER_HEADER_SIZE
          if del1Ok then
            ⟨true, guRun.events ++ [.alloc REPARSE_GUID_DATA_BUFFER_HEADER_SIZE]
              ++ tagRun.events
              ++ [.openWrite (isDirectoryFlag attrs), req1, .free, .closeHandle]⟩
          else
            let req2 := Event.ioctlDelete tag 0 0 gu
              REPARSE_GUID_DATA_BUFFER_HEADER_SIZE
            ⟨del2Ok, guRun.events ++ [.alloc REPARSE_GUID_DATA_BUFFER_HEADER_SIZE]
              ++ tagRun.events
              ++ [.openWrite (isDirectoryFlag attrs), req1, req2, .free, .closeHandle]⟩
        else
          ⟨false, guRun.events ++ [.alloc REPARSE_GUID_DATA_BUFFER_HEADER_SIZE]
            ++ tagRun.events ++ [.openWrite (isDirectoryFlag attrs)]⟩
      else
        ⟨false, guRun.events ++ [.alloc REPARSE_GUID_DATA_BUFFER_HEADER_SIZE]
          ++ tagRun.events ++ [.free]⟩
    else ⟨false, guRun.events⟩
  else ⟨false, []⟩

/-- CreateCustomReparsePoint: fail when the payload pointer is null, the
size is zero, or the size exceeds MAXIMUM_REPARSE_DATA_BUFFER_SIZE (note:
the guard in the source compares against the full maximum, not maximum
minus header); open for write; allocate a maximum-size zeroed buffer; set
tag, 16-bit data length, reserved = 0 and GUID; copy the payload; issue one
SET request with byte count `rd->ReparseDataLength +
REPARSE_GUID_DATA_BUFFER_HEADER_SIZE`; close the handle and free the
buffer. `pBufferNull` models `NULL == pBuffer`, `uBufSize` the UINT size
argument. -/
def CreateCustomReparsePoint (attrs : Nat) (pBufferNull : Bool)
    (uBufSize : Nat) (guid : List Nat) (tag : Nat)
    (openWriteOk setOk : Bool) : OpRun :=
  if pBufferNull || uBufSize == 0 || uBufSize > MAXIMUM_REPARSE_DATA_BUFFER_SIZE then
    ⟨false, []⟩
  else if openWriteOk then
    let dataLength := uBufSize % 2 ^ 16
    ⟨setOk,
      [.openWrite (isDirectoryFlag attrs), .alloc MAXIMUM_REPARSE_DATA_BUFFER_SIZE,
       .ioctlSet tag guid (dataLength + REPARSE_GUID_DATA_BUFFER_HEADER_SIZE),
       .closeHandle, .free]⟩
  else ⟨false, [.openWrite (isDirectoryFlag attrs)]⟩

/-- Number of allocation events in a trace. -/
def countAllocs (es : List Event) : Nat :=
  es.countP (fun e => match e with | .alloc _ => true | _ => false)

/-- Number of allocation events of a given size in a trace. -/
def allocsOfSize (n : Nat) (es : List Event) : Nat :=
  es.countP (fun e => match e with | .alloc m => m == n | _ => false)

/-- Number of free events in a trace. -/
def countFrees (es : List Event) : Nat :=
  es.countP (fun e => match e with | .free => true | _ => false)

/-- Whether an event is a DELETE control request. -/
def isDeleteReq : Event → Bool
  | .ioctlDelete _ _ _ _ _ => true
  | _ => false

/-- The DELETE control requests of a trace, in order. -/
def deleteReqs (es : List Event) : List Event :=
  es.filter isDeleteReq

/-- The SET control requests of a trace, in order. -/
def setReqs (es : List Event) : List Event :=
  es.filter (fun e => match e with | .ioctlSet _ _ _ => true | _ => false)

/-- Number of write-opens in a trace. -/
def countOpenWrites (es : List Event) : Nat :=
  es.countP (fun e => match e with | .openWrite _ => true | _ => false)

/-- Number of control-interface requests of any kind in a trace. -/
def countIoctls (es : List Event) : Nat :=
  es.countP (fun e => match e with
    | .ioctlGet => true
    | .ioctlDelete _ _ _ _ _ => true
    | .ioctlSet _ _ _ => true
    | _ => false)

/-- Helper: a query call never issues a DELETE control request. -/
theorem noDeleteReq_GetReparseGUID (attrs : Nat) (q : QueryEnv) (p : Bool) :
    ∀ e ∈ (GetReparseGUID attrs q p).events, isDeleteReq e = false := by
  rcases q with ⟨o, i, b⟩
  cases p <;> cases o <;> cases i <;>
    cases h : ReparsePointExists attrs <;>
      simp [GetReparseGUID, h, isDeleteReq]

/-- Helper: a tag query call never issues a DELETE control request. -/
theorem noDeleteReq_GetReparseTag (attrs : Nat) (q : QueryEnv) (p : Bool) :
    ∀ e ∈ (GetReparseTag attrs q p).events, isDeleteReq e = false := by
  rcases q with ⟨o, i, b⟩
  cases p <;> cases o <;> cases i <;>
    cases h : ReparsePointExists attrs <;>
      simp [GetReparseTag, h, isDeleteReq]

/-- Helper: a query call's trace filters to an empty DELETE-request list. -/
theorem deleteReqs_GetReparseGUID (attrs : Nat) (q : QueryEnv) (p : Bool) :
    deleteReqs (GetReparseGUID attrs q p).events = [] := by
  simp [deleteReqs, List.filter_eq_nil_iff]
  intro e he
  simp [noDeleteReq_GetReparseGUID attrs q p e he]

/-- Helper: a tag query call's trace filters to an empty DELETE-request list. -/
theorem deleteReqs_GetReparseTag (attrs : Nat) (q : QueryEnv) (p : Bool) :
    deleteReqs (GetReparseTag attrs q p).events = [] := by
  simp [deleteReqs, List.filter_eq_nil_iff]
  intro e he
  simp [noDeleteReq_GetReparseTag attrs q p e he]

/-- Helper: the DELETE requests of a concatenated trace. -/
theorem deleteReqs_append (a b : List Event) :
    deleteReqs (a ++ b) = deleteReqs a ++ deleteReqs b := by
  simp [deleteReqs, List.filter_append]

/-- C1: the claim says `ReparsePointExists` returns false for every path
without the reparse-point attribute, including nonexistent paths. But for a
nonexistent path GetFileAttributes returns INVALID_FILE_ATTRIBUTES (all
bits set), whose AND with FILE_ATTRIBUTE_REPARSE_POINT is the nonzero value
0x400, so the function returns true. For an existing path whose attributes
lack the bit (e.g. attribute word 0) it does return false. -/
theorem C1_nonexistent_path_reported_as_reparse_point :
    ReparsePointExists INVALID_FILE_ATTRIBUTES = true ∧
    ReparsePointExists 0 = false := by decide

/-- C2: the claim says every exit path releases the acquired buffer, in
particular that DeleteReparsePoint frees its delete buffer when opening the
path for mutation fails. On the run where the reparse attribute is present,
GUID and tag retrieval both succeed, and OpenFileForWrite fails, the trace
holds three allocations (two query scratch buffers and the 24-byte delete
buffer) but only two frees: the early return after the failed write-open
skips GlobalFree, leaking the delete buffer. -/
theorem C2_delete_leaks_buffer_when_open_for_write_fails :
    (DeleteReparsePoint 1024 ⟨true, true, List.range 24⟩ ⟨true, true, List.range 24⟩
        false true true).ret = false ∧
    countAllocs (DeleteReparsePoint 1024 ⟨true, true, List.range 24⟩
        ⟨true, true, List.range 24⟩ false true true).events = 3 ∧
    countFrees (DeleteReparsePoint 1024 ⟨true, true, List.range 24⟩
        ⟨true, true, List.range 24⟩ false true true).events = 2 ∧
    allocsOfSize REPARSE_GUID_DATA_BUFFER_HEADER_SIZE
      (DeleteReparsePoint 1024 ⟨true, true, List.range 24⟩
        ⟨true, true, List.range 24⟩ false true true).events = 3 - 2 := by decide

/-- C3: the claim says the size guard rejects exactly the payloads longer
than MAXIMUM_REPARSE_DATA_BUFFER_SIZE minus the custom-layout header size.
The source guard only rejects `uBufSize > MAXIMUM_REPARSE_DATA_BUFFER_SIZE`:
a payload of 16384 - 24 + 1 = 16361 bytes, one byte over the claimed limit,
passes the guard, opens a write handle and proceeds, while 16385 bytes is
rejected up front with no handle opened. -/
theorem C3_payload_one_byte_over_spec_limit_passes_guard :
    (CreateCustomReparsePoint 0 false
        (MAXIMUM_REPARSE_DATA_BUFFER_SIZE - REPARSE_GUID_DATA_BUFFER_HEADER_SIZE + 1)
        zeroGuid 5 true true).ret = true ∧
    countOpenWrites (CreateCustomReparsePoint 0 false
        (MAXIMUM_REPARSE_DATA_BUFFER_SIZE - REPARSE_GUID_DATA_BUFFER_HEADER_SIZE + 1)
        zeroGuid 5 true true).events = 1 ∧
    CreateCustomReparsePoint 0 false (MAXIMUM_REPARSE_DATA_BUFFER_SIZE + 1)
        zeroGuid 5 true true = ⟨false, []⟩ := by decide

/-- C5: the single SET request's byte count is the GUID-inclusive header
size plus the payload length, as the claim states — but the claim also says
this total never exceeds MAXIMUM_REPARSE_DATA_BUFFER_SIZE for any accepted
payload. The guard accepts a payload of 16384 bytes, whose SET request is
16384 + 24 = 16408 bytes, over the maximum (and over the 16384-byte scratch
allocation the payload is copied into). -/
theorem C5_accepted_payload_set_request_exceeds_maximum :
    setReqs (CreateCustomReparsePoint 0 false MAXIMUM_REPARSE_DATA_BUFFER_SIZE
        zeroGuid 5 true true).events
      = [Event.ioctlSet 5 zeroGuid
          (MAXIMUM_REPARSE_DATA_BUFFER_SIZE + REPARSE_GUID_DATA_BUFFER_HEADER_SIZE)] ∧
    MAXIMUM_REPARSE_DATA_BUFFER_SIZE + REPARSE_GUID_DATA_BUFFER_HEADER_SIZE
      > MAXIMUM_REPARSE_DATA_BUFFER_SIZE := by decide

/-- C6: DeleteReparsePoint fails without issuing any DELETE control request
whenever the path lacks the reparse-point attribute (in which case the
result is literally the same — return false, empty trace — for every
driver behaviour, so the failure is always identical), or the GUID query
fails, or the tag query fails. -/
theorem C6_delete_fails_before_any_delete_request
    (attrs : Nat) (qG qT : QueryEnv) (ow d1 d2 : Bool) :
    (attrs &&& FILE_ATTRIBUTE_REPARSE_POINT = 0 →
      DeleteReparsePoint attrs qG qT ow d1 d2 = ⟨false, []⟩) ∧
    ((GetReparseGUID attrs qG false).ret = false →
      (DeleteReparsePoint attrs qG qT ow d1 d2).ret = false ∧
      deleteReqs (DeleteReparsePoint attrs qG qT ow d1 d2).events = []) ∧
    ((GetReparseTag attrs qT false).ret = false →
      (DeleteReparsePoint attrs qG qT ow d1 d2).ret = false ∧
      deleteReqs (DeleteReparsePoint attrs qG qT ow d1 d2).events = []) := by
  refine ⟨fun h => ?_, fun hg => ?_, fun ht => ?_⟩
  · have hrp : ReparsePointExists attrs = false := by
      simp [ReparsePointExists, h]
    simp [DeleteReparsePoint, hrp]
  · cases hrp : ReparsePointExists attrs
    · simp [DeleteReparsePoint, hrp, deleteReqs]
    · simp [DeleteReparsePoint, hrp, hg, deleteReqs_GetReparseGUID]
  · cases hrp : ReparsePointExists attrs
    · simp [DeleteReparsePoint, hrp, deleteReqs]
    · cases hgr : (GetReparseGUID attrs qG false).ret
      · simp [DeleteReparsePoint, hrp, hgr, deleteReqs_GetReparseGUID]
      · refine ⟨by simp [DeleteReparsePoint, hrp, hgr, ht], ?_⟩
        simp only [DeleteReparsePoint, hrp, hgr, ht, if_true, if_false,
          Bool.false_eq_true, ite_false, ite_true]
        simp [deleteReqs, List.filter_eq_nil_iff, isDeleteReq]
        constructor
        · intro e he
          simpa [isDeleteReq] using noDeleteReq_GetReparseGUID attrs qG false e he
        · intro e he
          simpa [isDeleteReq] using noDeleteReq_GetReparseTag attrs qT false e he

/-- C6 witness: concrete instances — a path without the attribute, a run
where the GUID query's open fails, and a run where the tag query's open
fails; in each the delete fails and no DELETE request appears. -/
theorem C6_delete_fails_before_any_delete_request_witness :
    DeleteReparsePoint 0 ⟨true, true, []⟩ ⟨true, true, []⟩ true true true = ⟨false, []⟩ ∧
    (DeleteReparsePoint 1024 ⟨false, true, []⟩ ⟨true, true, []⟩ true true true).ret = false ∧
    deleteReqs (DeleteReparsePoint 1024 ⟨true, true, []⟩ ⟨false, true, []⟩
        true true true).events = [] := by
  exact ⟨(C6_delete_fails_before_any_delete_request 0 ⟨true, true, []⟩ ⟨true, true, []⟩
      true true true).1 (by decide),
    ((C6_delete_fails_before_any_delete_request 1024 ⟨false, true, []⟩ ⟨true, true, []⟩
      true true true).2.1 (by decide)).1,
    ((C6_delete_fails_before_any_delete_request 1024 ⟨true, true, []⟩ ⟨false, true, []⟩
      true true true).2.2 (by decide)).2⟩

/-- C7: GetReparseGUID and GetReparseTag fail with no event at all — no
control request, no handle, no allocation — when the output pointer is
null, and likewise when the path's attributes lack the reparse-point bit. -/
theorem C7_queries_fail_fast_without_control_request
    (attrs : Nat) (q : QueryEnv) :
    GetReparseGUID attrs q true = ⟨false, [], []⟩ ∧
    GetReparseTag attrs q true = ⟨false, [], []⟩ ∧
    (attrs &&& FILE_ATTRIBUTE_REPARSE_POINT = 0 →
      GetReparseGUID attrs q false = ⟨false, [], []⟩ ∧
      GetReparseTag attrs q false = ⟨false, [], []⟩) := by
  refine ⟨rfl, rfl, fun h => ?_⟩
  have hrp : ReparsePointExists attrs = false := by
    simp [ReparsePointExists, h]
  constructor <;> simp [GetReparseGUID, GetReparseTag, hrp]

/-- C7 witness: a null output pointer and a path with attribute word 0. -/
theorem C7_queries_fail_fast_without_control_request_witness :
    GetReparseGUID 0 ⟨true, true, []⟩ true = ⟨false, [], []⟩ ∧
    GetReparseGUID 0 ⟨true, true, []⟩ false = ⟨false, [], []⟩ ∧
    GetReparseTag 0 ⟨true, true, []⟩ false = ⟨false, [], []⟩ := by
  have h := C7_queries_fail_fast_without_control_request 0 ⟨true, true, []⟩
  exact ⟨h.1, (h.2.2 (by decide)).1, (h.2.2 (by decide)).2⟩

/-- C9: on any successful run, GetReparseGUID reports success and stores the
16 bytes found at the fixed GUID offset of the returned buffer, for every
buffer the driver returns — the tag bytes are never inspected, so two
buffers agreeing on the GUID region (but with, say, a system tag in one and
a custom tag in the other) produce identical output. -/
theorem C9_guid_read_at_fixed_offset_ignores_tag
    (attrs : Nat) (buf buf2 : List Nat)
    (h : ReparsePointExists attrs = true) :
    (GetReparseGUID attrs ⟨true, true, buf⟩ false).ret = true ∧
    (GetReparseGUID attrs ⟨true, true, buf⟩ false).writes = [guidAt buf] ∧
    (guidAt buf = guidAt buf2 →
      (GetReparseGUID attrs ⟨true, true, buf⟩ false).writes
        = (GetReparseGUID attrs ⟨true, true, buf2⟩ false).writes) := by
  refine ⟨by simp [GetReparseGUID, h], by simp [GetReparseGUID, h], fun hg => ?_⟩
  simp [GetReparseGUID, h, hg]

/-- C9 witness: a buffer whose first four bytes are replaced by 0xFF each (a
tag with the high bit set, i.e. a system tag) yields the same successful
GUID read as the original buffer, since bytes 8..23 agree. -/
theorem C9_guid_read_at_fixed_offset_ignores_tag_witness :
    (GetReparseGUID 1024 ⟨true, true, List.range 24⟩ false).ret = true ∧
    (GetReparseGUID 1024 ⟨true, true, List.range 24⟩ false).writes
      = (GetReparseGUID 1024
          ⟨true, true, 255 :: 255 :: 255 :: 255 :: (List.range 24).drop 4⟩ false).writes := by
  have h := C9_guid_read_at_fixed_offset_ignores_tag 1024 (List.range 24)
    (255 :: 255 :: 255 :: 255 :: (List.range 24).drop 4) (by decide)
  exact ⟨h.1, h.2.2 (by decide)⟩

/-- C10: for both query operations and every environment, the number of
stores through the caller's output pointer is one when the operation
returns success and zero when it fails — so every failing run (null
pointer, missing attribute, failed open, rejected GET) leaves the output
location untouched. -/
theorem C10_output_written_exactly_on_success
    (attrs : Nat) (q : QueryEnv) (pNull : Bool) :
    (GetReparseGUID attrs q pNull).writes.length
      = (if (GetReparseGUID attrs q pNull).ret then 1 else 0) ∧
    (GetReparseTag attrs q pNull).writes.length
      = (if (GetReparseTag attrs q pNull).ret then 1 else 0) := by
  rcases q with ⟨o, i, b⟩
  cases pNull <;> cases o <;> cases i <;>
    cases h : ReparsePointExists attrs <;>
      simp [GetReparseGUID, GetReparseTag, h]

/-- C4: when the preconditions pass (reparse attribute present, both query
calls succeed, write-open succeeds), DeleteReparsePoint issues at most two
DELETE requests: first the header-only one (tag = retrieved tag, zero GUID
field, GUID-inclusive-header byte count); if the driver accepts it the call
returns success with no second request, otherwise exactly one further
request follows with the GUID field populated from the earlier GUID query,
and that second request's outcome is returned as-is. -/
theorem C4_delete_two_attempt_protocol
    (attrs : Nat) (bufG bufT : List Nat) (d1 d2 : Bool)
    (h : ReparsePointExists attrs = true) :
    (deleteReqs (DeleteReparsePoint attrs ⟨true, true, bufG⟩ ⟨true, true, bufT⟩
        true d1 d2).events).length ≤ 2 ∧
    (d1 = true →
      (DeleteReparsePoint attrs ⟨true, true, bufG⟩ ⟨true, true, bufT⟩
          true d1 d2).ret = true ∧
      deleteReqs (DeleteReparsePoint attrs ⟨true, true, bufG⟩ ⟨true, true, bufT⟩
          true d1 d2).events
        = [Event.ioctlDelete (tagAt bufT) 0 0 zeroGuid
            REPARSE_GUID_DATA_BUFFER_HEADER_SIZE]) ∧
    (d1 = false →
      (DeleteReparsePoint attrs ⟨true, true, bufG⟩ ⟨true, true, bufT⟩
          true d1 d2).ret = d2 ∧
      deleteReqs (DeleteReparsePoint attrs ⟨true, true, bufG⟩ ⟨true, true, bufT⟩
          true d1 d2).events
        = [Event.ioctlDelete (tagAt bufT) 0 0 zeroGuid
            REPARSE_GUID_DATA_BUFFER_HEADER_SIZE,
           Event.ioctlDelete (tagAt bufT) 0 0 (guidAt bufG)
            REPARSE_GUID_DATA_BUFFER_HEADER_SIZE]) := by
  cases d1 <;>
    refine ⟨?_, fun h1 => ?_, fun h1 => ?_⟩ <;>
      simp_all [DeleteReparsePoint, GetReparseGUID, GetReparseTag,
        deleteReqs, isDeleteReq]

/-- C4 witness: a concrete run where the driver rejects the header-only
DELETE and accepts the GUID-populated one — exactly two requests, overall
success. -/
theorem C4_delete_two_attempt_protocol_witness :
    (DeleteReparsePoint 1024 ⟨true, true, List.range 24⟩ ⟨true, true, List.range 24⟩
        true false true).ret = true ∧
    (deleteReqs (DeleteReparsePoint 1024 ⟨true, true, List.range 24⟩
        ⟨true, true, List.range 24⟩ true false true).events).length = 2 := by
  have h := C4_delete_two_attempt_protocol 1024 (List.range 24) (List.range 24)
    false true (by decide)
  refine ⟨(h.2.2 rfl).1, ?_⟩
  rw [(h.2.2 rfl).2]
  rfl

/-- C8 counterexample: on a concrete run that reaches both DELETE attempts,
the delete buffer allocation is of REPARSE_GUID_DATA_BUFFER_HEADER_SIZE
(24 bytes, the GUID-inclusive header — it must contain the GUID region,
which attempt 2 writes), and no allocation of the no-GUID header size
(REPARSE_DATA_BUFFER_HEADER_SIZE, 8 bytes) occurs anywhere in the trace, so
the delete buffer is not "sized exactly to the no-GUID header size". -/
theorem C8_delete_buffer_not_noguid_sized :
    allocsOfSize REPARSE_GUID_DATA_BUFFER_HEADER_SIZE
      (DeleteReparsePoint 1024 ⟨true, true, List.range 24⟩ ⟨true, true, List.range 24⟩
        true false true).events = 1 ∧
    allocsOfSize REPARSE_DATA_BUFFER_HEADER_SIZE
      (DeleteReparsePoint 1024 ⟨true, true, List.range 24⟩ ⟨true, true, List.range 24⟩
        true false true).events = 0 ∧
    REPARSE_GUID_DATA_BUFFER_HEADER_SIZE ≠ REPARSE_DATA_BUFFER_HEADER_SIZE := by
  decide

/-- C8 amended: DeleteReparsePoint allocates its delete buffer sized exactly
to the GUID-inclusive header size REPARSE_GUID_DATA_BUFFER_HEADER_SIZE
(24 bytes, containing the zero-initialised GUID region), with the tag field
set to the retrieved tag and the length and reserved fields zero, and it
issues both DELETE attempts with that same GUID-inclusive header byte
count. -/
theorem C8_delete_buffer_guid_inclusive_header
    (attrs : Nat) (bufG bufT : List Nat) (d2 : Bool)
    (h : ReparsePointExists attrs = true) :
    allocsOfSize REPARSE_GUID_DATA_BUFFER_HEADER_SIZE
      (DeleteReparsePoint attrs ⟨true, true, bufG⟩ ⟨true, true, bufT⟩
        true false d2).events = 1 ∧
    deleteReqs (DeleteReparsePoint attrs ⟨true, true, bufG⟩ ⟨true, true, bufT⟩
        true false d2).events
      = [Event.ioctlDelete (tagAt bufT) 0 0 zeroGuid
          REPARSE_GUID_DATA_BUFFER_HEADER_SIZE,
         Event.ioctlDelete (tagAt bufT) 0 0 (guidAt bufG)
          REPARSE_GUID_DATA_BUFFER_HEADER_SIZE] := by
  constructor <;>
    simp [DeleteReparsePoint, GetReparseGUID, GetReparseTag, h,
      allocsOfSize, deleteReqs, isDeleteReq,
      MAXIMUM_REPARSE_DATA_BUFFER_SIZE, REPARSE_GUID_DATA_BUFFER_HEADER_SIZE]

/-- C8 amended witness: a concrete run exercising both attempts. -/
theorem C8_delete_buffer_guid_inclusive_header_witness :
    allocsOfSize REPARSE_GUID_DATA_BUFFER_HEADER_SIZE
      (DeleteReparsePoint 1040 ⟨true, true, List.range 4⟩ ⟨true, true, List.range 4⟩
        true false false).events = 1 ∧
    (deleteReqs (DeleteReparsePoint 1040 ⟨true, true, List.range 4⟩
        ⟨true, true, List.range 4⟩ true false false).events).length = 2 := by
  have h := C8_delete_buffer_guid_inclusive_header 1040 (List.range 4) (List.range 4)
    false (by decide)
  refine ⟨h.1, ?_⟩
  rw [h.2]
  rfl
